import Mathlib

/-! Verification of the DEV.to analytics time-series store and attribution engine.

Shallow embedding of the core algorithms of the repository:
* the proximity-based snapshot matcher (`app/db/connection.py:find_closest_snapshot`,
  and the raw ORDER BY ABS(...) LIMIT 1 queries inside
  `app/services/analytics_service.py`),
* the Share-of-Voice follower attribution
  (`app/services/analytics_service.py:weighted_follower_attribution`),
* the quality-score computation (`app/services/analytics_service.py:get_quality_scores`),
* the incremental sentiment work queue
  (`app/services/nlp_service.py:process_pending_comments` and `_process_batch`),
* the sync orchestrator control flow (`scripts/sync_worker.py:run_sync_pipeline`,
  `app/services/devto_service.py:sync_all`, `sync_followers`, `sync_articles`,
  `sync_comments`).

Timestamps are embedded as `Int` epoch seconds (the SQL queries compare
EXTRACT(EPOCH FROM ...) values).  Fractional attribution arithmetic is carried
out in `ℚ`; the Python floats are an approximation of this exact arithmetic.
-/

namespace Devto

/-- A row of the `follower_events` table (`app/db/tables.py:110-120`):
global follower count snapshots, UNIQUE on `collected_at`. -/
structure FollowerEvent where
  collected_at : Int
  follower_count : Int
  new_followers_since_last : Int
  deriving DecidableEq

/-- A row of the `article_metrics` table (`app/db/tables.py:76-102`), restricted
to the columns the attribution engine reads. UNIQUE on
`(collected_at, article_id)`. -/
structure ArticleMetricRow where
  collected_at : Int
  article_id : Int
  title : String
  views : Int
  deriving DecidableEq

/-- `ORDER BY ABS(EXTRACT(EPOCH FROM time_col) - EXTRACT(EPOCH FROM target)) LIMIT 1`:
the row minimizing the absolute epoch distance to `target`, the earliest such row
on ties, or none if the relation is empty.  This is the raw proximity query issued by
`analytics_service.weighted_follower_attribution` (lines 936-967, 1015-1042) and
`analytics_service.article_follower_correlation` (lines 857-883). -/
def closestBy {α : Type} (time : α → Int) (target : Int) : List α → Option α
  | [] => none
  | x :: xs =>
    some (xs.foldl (fun best y => if |time y - target| < |time best - target| then y else best) x)

/-- The follower-snapshot proximity query of the attribution engine
(`analytics_service.py:936-967`): nearest `follower_events` row to `target`,
with no tolerance-window filter in the WHERE clause. -/
def closest_follower_event (events : List FollowerEvent) (target : Int) :
    Option FollowerEvent :=
  closestBy (fun ev => ev.collected_at) target events

/-- The per-article views proximity query of the attribution engine
(`analytics_service.py:1015-1042`): nearest `article_metrics` row for the given
article, again with no tolerance-window filter. -/
def closest_views (rows : List ArticleMetricRow) (aid : Int) (target : Int) :
    Option Int :=
  (closestBy (fun r => r.collected_at) target
    (rows.filter (fun r => decide (r.article_id = aid)))).map (fun r => r.views)

/-- `app/db/connection.py:find_closest_snapshot`: the repository's proximity
matcher primitive.  It restricts candidates to the window
`[target - tolerance_hours, target + tolerance_hours]` (the BETWEEN filter at
connection.py:287-291) and then takes the row minimizing the absolute epoch
distance. -/
def find_closest_snapshot {α : Type} (time : α → Int) (rows : List α)
    (target_time : Int) (tolerance_hours : Int) : Option α :=
  closestBy time target_time
    (rows.filter (fun r =>
      decide (target_time - tolerance_hours * 3600 ≤ time r ∧
        time r ≤ target_time + tolerance_hours * 3600)))

/-! Quality scorer (`analytics_service.get_quality_scores`, lines 316-341). -/

/-- The per-row quality-score computation of
`analytics_service.get_quality_scores` (lines 317-329), with Python's float
arithmetic idealized over `ℚ`:

    length_sec = (reading_time_minutes or 5) * 60
    avg_read   = float(avg_read_seconds or 0)
    completion = min(100, (avg_read / length_sec) * 100) if length_sec > 0 else 0
    views      = int(views_90d or 1)
    engagement = ((reactions + comments) / views) * 100
    score      = (completion * 0.7) + (min(engagement, 20) * 1.5)

Python's `or` treats both `None` and `0` as falsy, which is why a zero
`reading_time_minutes` falls back to 5 and zero `views_90d` is floored to 1.
The final `round(score, 1)` is omitted: it maps `[0, 100]` into itself and is
monotone, so it does not affect the properties below. -/
def quality_score (reading_time_minutes : Option Int) (avg_read_seconds : ℚ)
    (views_90d reactions_90d comments_90d : Int) : ℚ :=
  let length_sec : Int :=
    (match reading_time_minutes with
      | none => 5
      | some v => if v = 0 then 5 else v) * 60
  let completion : ℚ :=
    if 0 < length_sec then min 100 ((avg_read_seconds / (length_sec : ℚ)) * 100) else 0
  let views : Int := if views_90d = 0 then 1 else views_90d
  let engagement : ℚ := (((reactions_90d + comments_90d : Int) : ℚ) / (views : ℚ)) * 100
  completion * (7 / 10) + min engagement 20 * (3 / 2)

/-! Attribution engine (`analytics_service.weighted_follower_attribution`,
lines 900-1078). -/

/-- One entry of the `attribution` list in the result of
`weighted_follower_attribution` (lines 1047-1069). -/
structure AttributionItem where
  title : String
  views_gain : Int
  traffic_share : ℚ
  attributed_followers : ℚ
  deriving DecidableEq

/-- The dict returned by `weighted_follower_attribution`: an optional `error`
entry, the `total_gain`, and the `attribution` list.  (The `actual_hours`,
`global_traffic_gain`, `start_time` and `end_time` entries of the success dict
are recoverable from the inputs and are not tracked.) -/
structure AttributionResult where
  error : Option String
  total_gain : Int
  attribution : List AttributionItem
  deriving DecidableEq

/-- The distinct-articles query `select(article_id, title).distinct()`
(lines 1000-1006), embedded as order-preserving first-occurrence
deduplication of `(article_id, title)` pairs. -/
def distinct_articles (rows : List ArticleMetricRow) : List (Int × String) :=
  rows.foldl
    (fun acc r => if (r.article_id, r.title) ∈ acc then acc else acc ++ [(r.article_id, r.title)])
    []

/-- The per-article traffic-gain loop (lines 1013-1051): for every distinct
article, the nearest views snapshot at `startT` and at `endT`; the article is
appended with `views_gain = v_end - v_start` exactly when both snapshots exist
and the gain is positive. -/
def article_gains (rows : List ArticleMetricRow) (startT endT : Int) :
    List (String × Int) :=
  (distinct_articles rows).filterMap (fun a =>
    match closest_views rows a.1 startT, closest_views rows a.1 endT with
    | some vs, some ve => if 0 < ve - vs then some (a.2, ve - vs) else none
    | _, _ => none)

/-- `analytics_service.weighted_follower_attribution` (lines 900-1078),
with the analysis boundaries `startT`/`endT` (computed in the source from
`now()` and the `hours` parameter, lines 930-931) passed explicitly:

1. nearest follower snapshot to each boundary (no tolerance filter);
2. explicit error when a snapshot is missing or both are the same row;
3. `total_gain <= 0` returns zero attribution without an error entry;
4. per-article positive view gains, `global_traffic_gain` their sum
   (accumulated in the same loop in the source, lines 1044-1051);
5. explicit error when `global_traffic_gain == 0`;
6. otherwise the gains are sorted by `views_gain` descending (stable, line
   1063) and each article receives
   `attributed_followers = (views_gain / global_traffic_gain) * total_gain`. -/
def weighted_follower_attribution (events : List FollowerEvent)
    (rows : List ArticleMetricRow) (startT endT : Int) : AttributionResult :=
  match closest_follower_event events startT, closest_follower_event events endT with
  | none, _ => ⟨some ("Need at least two follower snapshots"), 0, []⟩
  | some _, none => ⟨some ("Need at least two follower snapshots"), 0, []⟩
  | some s, some e =>
    if s.collected_at = e.collected_at then
      ⟨some ("Need two different snapshots"), 0, []⟩
    else
      let total_gain := e.follower_count - s.follower_count
      if total_gain ≤ 0 then
        ⟨none, total_gain, []⟩
      else
        let gains := article_gains rows startT endT
        let glb : Int := (gains.map (fun g => g.2)).sum
        if glb = 0 then
          ⟨some ("No traffic detected in period"), total_gain, []⟩
        else
          let sorted := gains.insertionSort (fun a b => b.2 ≤ a.2)
          ⟨none, total_gain,
            sorted.map (fun g =>
              ⟨g.1, g.2, (g.2 : ℚ) / (glb : ℚ), (g.2 : ℚ) / (glb : ℚ) * (total_gain : ℚ)⟩)⟩

/-! Incremental sentiment work queue (`nlp_service.process_pending_comments`,
lines 257-335, and `nlp_service._process_batch`, lines 337-419). -/

/-- A row of the `comments` table (`app/db/tables.py:123-144`), restricted to
the columns the work queue reads (comment_id UNIQUE). -/
structure CommentRow where
  comment_id : String
  author_username : String
  body_html : String
  deriving DecidableEq

/-- The store state seen by the NLP service: the `comments` table, the set of
`comment_id`s present in `comment_insights` (its primary key), and the
configured author username used for self-exclusion. -/
structure NLPState where
  comments : List CommentRow
  insights : List String
  author_username : String
  deriving DecidableEq

/-- Python's `str.strip()`: drop whitespace from both ends. -/
def stripText (s : String) : String :=
  String.mk (((s.data.dropWhile Char.isWhitespace).reverse.dropWhile Char.isWhitespace).reverse)

/-- `nlp_service.clean_text` (lines 127-149): empty input yields the empty
string (`if not html: return ""`), otherwise BeautifulSoup strips `code`/`pre`
blocks and the result of `get_text` is `strip()`ped.  The HTML parsing itself
is external library behaviour; this embedding is exact for inputs without HTML
markup (for which `get_text` is the identity), in particular for the empty and
whitespace-only bodies the theorems below evaluate it on. -/
def clean_text (html : String) : String :=
  if html = "" then "" else stripText html

/-- The pending-comment query of `process_pending_comments` (lines 276-295):
comments with no `comment_insights` row (anti-join, `insights.comment_id IS
NULL`) whose author is not the configured author, with no LIMIT (the
`limit=None` full run). -/
def pending_comments (st : NLPState) : List CommentRow :=
  st.comments.filter (fun c =>
    decide (c.comment_id ∉ st.insights ∧ c.author_username ≠ st.author_username))

/-- One full run of `process_pending_comments` (limit `None`) together with
`_process_batch` over every batch: every pending comment whose cleaned text is
non-empty gets a `comment_insights` row (upsert on the primary key; both the
spam and the sentiment path insert, lines 363-378 and 397-417) and increments
`processed`; a comment whose cleaned text is empty is skipped by the
`if not text: continue` at lines 355-356 and gets no row.  Returns the new
store state and the `processed` count. -/
def process_pending_comments (st : NLPState) : NLPState × Nat :=
  let processed :=
    (pending_comments st).filter (fun c => decide (clean_text c.body_html ≠ ""))
  (⟨st.comments, st.insights ++ processed.map (fun c => c.comment_id), st.author_username⟩,
    processed.length)

/-! Sync orchestrator (`scripts/sync_worker.py:run_sync_pipeline`, lines
93-281, and `app/services/devto_service.py`). -/

/-- Outcome of one sub-pipeline invocation: the Python coroutine either
returns a count or raises. -/
inductive PhaseResult where
  | ok : Int → PhaseResult
  | err : String → PhaseResult
  deriving DecidableEq

/-- The environment of one `run_sync_pipeline` invocation: whether
`pg_try_advisory_lock` succeeds (`lock_free`, sync_worker.py:124), and the
outcome each of the four phases would produce if executed. -/
structure SyncEnv where
  lock_free : Bool
  collection : PhaseResult
  enrichment : PhaseResult
  intelligence : PhaseResult
  cache_refresh : PhaseResult
  deriving DecidableEq

/-- What an invocation of the sync worker did: its process exit code and the
phases it attempted, in order. -/
structure SyncOutcome where
  exit_code : Nat
  phases_run : List String
  deriving DecidableEq

/-- `scripts/sync_worker.py:run_sync_pipeline` control flow: if the advisory
lock is not acquired, return 0 at once with no phase executed (lines 124-127);
otherwise run the four phases sequentially; an exception in any phase jumps to
the `except` handler which returns 1 (lines 260-267), so later phases are not
attempted; if all succeed return 0 (line 254). -/
def run_sync_pipeline (env : SyncEnv) : SyncOutcome :=
  if env.lock_free = false then ⟨0, []⟩
  else
    match env.collection with
    | .err _ => ⟨1, ["collection"]⟩
    | .ok _ =>
      match env.enrichment with
      | .err _ => ⟨1, ["collection", "enrichment"]⟩
      | .ok _ =>
        match env.intelligence with
        | .err _ => ⟨1, ["collection", "enrichment", "intelligence"]⟩
        | .ok _ =>
          match env.cache_refresh with
          | .err _ => ⟨1, ["collection", "enrichment", "intelligence", "cache"]⟩
          | .ok _ => ⟨0, ["collection", "enrichment", "intelligence", "cache"]⟩

/-- The four sub-pipeline outcomes available to `devto_service.sync_all`
(lines 581-623). -/
structure SyncAllEnv where
  articles : PhaseResult
  followers : PhaseResult
  comments : PhaseResult
  rich_analytics : PhaseResult
  deriving DecidableEq

/-- What a `sync_all` call did: the propagated exception if any, the
sub-pipelines that were started (in order), and whether the summary dict was
built and returned (lines 603-623). -/
structure SyncAllOutcome where
  failure : Option String
  executed : List String
  summary_produced : Bool
  deriving DecidableEq

/-- `devto_service.sync_all` (lines 581-623): the four sub-syncs are awaited
sequentially with no try/except around any of them, so the first exception
propagates out of `sync_all`, the remaining sub-syncs are not started, and the
summary is only produced when all four succeed. -/
def sync_all (env : SyncAllEnv) : SyncAllOutcome :=
  match env.articles with
  | .err m => ⟨some m, ["articles"], false⟩
  | .ok _ =>
    match env.followers with
    | .err m => ⟨some m, ["articles", "followers"], false⟩
    | .ok _ =>
      match env.comments with
      | .err m => ⟨some m, ["articles", "followers", "comments"], false⟩
      | .ok _ =>
        match env.rich_analytics with
        | .err m => ⟨some m, ["articles", "followers", "comments", "rich_analytics"], false⟩
        | .ok _ => ⟨none, ["articles", "followers", "comments", "rich_analytics"], true⟩

/-! Point-in-time insert behaviour of the sub-pipelines
(`devto_service.sync_articles`, `sync_comments`, `sync_followers`) against the
uniqueness constraints of `app/db/tables.py`. -/

/-- The `sync_articles` row insert (devto_service.py:300-320):
`INSERT ... ON CONFLICT DO NOTHING` on `uq_article_metrics_collected_article`,
i.e. on the `(collected_at, article_id)` key (tables.py:99). -/
def insert_article_metric (store : List ArticleMetricRow) (r : ArticleMetricRow) :
    List ArticleMetricRow :=
  if store.any (fun x => decide (x.collected_at = r.collected_at ∧ x.article_id = r.article_id))
  then store
  else store ++ [r]

/-- The `sync_comments` row insert (devto_service.py:399-418):
`INSERT ... ON CONFLICT DO NOTHING` on `uq_comments_comment_id` (tables.py:128).
Returns the new store and whether `rowcount > 0` (a new row was written). -/
def insert_comment (store : List CommentRow) (c : CommentRow) :
    List CommentRow × Bool :=
  if store.any (fun x => decide (x.comment_id = c.comment_id))
  then (store, false)
  else (store ++ [c], true)

/-- The `ORDER BY collected_at DESC LIMIT 1` lookup of `sync_followers`
(devto_service.py:344-350): follower count of the most recent event, 0 when
the table is empty. -/
def latest_follower_count (store : List FollowerEvent) : Int :=
  match store with
  | [] => 0
  | x :: xs =>
    (xs.foldl (fun best y => if best.collected_at < y.collected_at then y else best) x).follower_count

/-- `devto_service.sync_followers` (lines 342-359): computes the delta against
the latest recorded count and then issues a PLAIN `insert` (sqlalchemy
`insert`, not the `pg_insert ... on_conflict_do_nothing` used by the other
sub-pipelines).  The `follower_events.collected_at` column is UNIQUE
(tables.py:114), so inserting an already-recorded `collected_at` makes the
database raise a uniqueness violation, embedded as `Except.error`. -/
def sync_followers (store : List FollowerEvent) (collected_at count : Int) :
    Except String (List FollowerEvent) :=
  let delta := count - latest_follower_count store
  if store.any (fun x => decide (x.collected_at = collected_at))
  then Except.error ("duplicate key value violates unique constraint")
  else Except.ok (store ++ [⟨collected_at, count, delta⟩])

/-! Spec-side predicate and sample data used by the theorems below. -/

/-- The insufficient-data contract of the attribution engine as the spec states
it (spec section 4.3, steps 2-3): an explicit error result when a boundary
snapshot is missing or both boundaries resolve to the same underlying snapshot,
and an error-free zero attribution when two distinct snapshots show a
non-positive gain. -/
def insufficient_data_spec (events : List FollowerEvent) (rows : List ArticleMetricRow)
    (startT endT : Int) : Prop :=
  ((closest_follower_event events startT = none ∨ closest_follower_event events endT = none) →
    (weighted_follower_attribution events rows startT endT).error
      = some ("Need at least two follower snapshots")) ∧
  (∀ s e, closest_follower_event events startT = some s →
    closest_follower_event events endT = some e → s.collected_at = e.collected_at →
    (weighted_follower_attribution events rows startT endT).error
      = some ("Need two different snapshots")) ∧
  (∀ s e, closest_follower_event events startT = some s →
    closest_follower_event events endT = some e → s.collected_at ≠ e.collected_at →
    e.follower_count - s.follower_count ≤ 0 →
    (weighted_follower_attribution events rows startT endT).error = none ∧
    (weighted_follower_attribution events rows startT endT).total_gain
      = e.follower_count - s.follower_count ∧
    (weighted_follower_attribution events rows startT endT).attribution = [])

/-- Sample follower history: 100 followers at epoch 0, 150 at epoch 604800
(7 days later) — the worked example of the spec (gain 50). -/
def sampleEvents : List FollowerEvent := [⟨0, 100, 0⟩, ⟨604800, 150, 0⟩]

/-- Sample article metrics: article 1 gains 300 views over the window,
article 2 gains 100 (total 400). -/
def sampleRows : List ArticleMetricRow :=
  [⟨0, 1, "A", 100⟩, ⟨604800, 1, "A", 400⟩, ⟨0, 2, "B", 0⟩, ⟨604800, 2, "B", 100⟩]

/-- Sample follower history with a declining count (gain -50). -/
def decliningEvents : List FollowerEvent := [⟨0, 150, 0⟩, ⟨604800, 100, 0⟩]

/-! Helper lemmas shared by the claim theorems. -/

/-- Every entry produced by the per-article gain loop has a strictly positive
`views_gain` (only `views_gain > 0` rows are appended). -/
theorem article_gains_pos (rows : List ArticleMetricRow) (startT endT : Int) :
    ∀ p ∈ article_gains rows startT endT, 0 < p.2 := by
  intro p hp
  simp only [article_gains, List.mem_filterMap] at hp
  obtain ⟨a, _, ha⟩ := hp
  rcases h1 : closest_views rows a.1 startT with _ | vs <;> rw [h1] at ha
  · simp at ha
  · rcases h2 : closest_views rows a.1 endT with _ | ve <;> rw [h2] at ha
    · simp at ha
    · dsimp only at ha
      split_ifs at ha with h
      · cases ha
        exact h

/-- Each per-article gain is at most the global traffic gain (the sum of all
the positive gains). -/
theorem article_gains_le_sum (rows : List ArticleMetricRow) (startT endT : Int) :
    ∀ p ∈ article_gains rows startT endT,
      p.2 ≤ ((article_gains rows startT endT).map (fun g => g.2)).sum := by
  intro p hp
  apply List.single_le_sum
  · intro x hx
    simp only [List.mem_map] at hx
    obtain ⟨q, hq, rfl⟩ := hx
    exact le_of_lt (article_gains_pos rows startT endT q hq)
  · exact List.mem_map_of_mem _ hp

theorem sum_map_mul_right_q {α : Type} (l : List α) (f : α → ℚ) (b : ℚ) :
    (l.map (fun x => f x * b)).sum = (l.map f).sum * b := by
  induction l with
  | nil => simp
  | cons x xs ih => simp [ih, add_mul]

theorem sum_map_snd_cast (l : List (String × Int)) :
    (l.map (fun g => ((g.2 : Int) : ℚ))).sum = (((l.map (fun g => g.2)).sum : Int) : ℚ) := by
  induction l with
  | nil => simp
  | cons x xs ih => simp [ih]

/-- Summing `(views_gain / G) * T` over a gains list whose `views_gain`s sum to
`G ≠ 0` yields exactly `T`. -/
theorem sum_attributed (l : List (String × Int)) (T G : Int) (hG : G ≠ 0)
    (hsum : (l.map (fun g => g.2)).sum = G) :
    ((l.map (fun g =>
        (⟨g.1, g.2, (g.2 : ℚ) / (G : ℚ), (g.2 : ℚ) / (G : ℚ) * (T : ℚ)⟩ : AttributionItem))).map
      (fun i => i.attributed_followers)).sum = (T : ℚ) := by
  rw [List.map_map]
  simp only [Function.comp_def]
  simp only [div_mul_eq_mul_div, mul_div_assoc]
  rw [sum_map_mul_right_q l (fun g => ((g.2 : Int) : ℚ)) ((T : ℚ) / (G : ℚ))]
  rw [sum_map_snd_cast, hsum]
  rw [mul_comm, div_mul_cancel₀ _ (Int.cast_ne_zero.mpr hG : ((G : Int) : ℚ) ≠ 0)]

/-- The score combination `completion * 0.7 + min(engagement, 20) * 1.5` maps
`completion ∈ [0, 100]` and `engagement ≥ 0` into `[0, 100]`. -/
theorem score_formula_bounds (completion engagement : ℚ)
    (h1 : 0 ≤ completion) (h2 : completion ≤ 100) (h3 : 0 ≤ engagement) :
    0 ≤ completion * (7 / 10) + min engagement 20 * (3 / 2) ∧
    completion * (7 / 10) + min engagement 20 * (3 / 2) ≤ 100 := by
  have hm0 : (0 : ℚ) ≤ min engagement 20 := le_min h3 (by norm_num)
  have hm20 : min engagement 20 ≤ 20 := min_le_right _ _
  constructor <;> nlinarith

/-- Full evaluation of the attribution engine on the spec's worked example:
follower gain 50, view gains 300 and 100, attributions 37.5 and 12.5. -/
theorem sample_attribution_eval :
    weighted_follower_attribution sampleEvents sampleRows 0 604800 =
      ⟨none, 50, [⟨"A", 300, 3 / 4, 75 / 2⟩, ⟨"B", 100, 1 / 4, 25 / 2⟩]⟩ := by
  have hs : closest_follower_event sampleEvents 0 = some ⟨0, 100, 0⟩ := by decide
  have he : closest_follower_event sampleEvents 604800 = some ⟨604800, 150, 0⟩ := by decide
  have hg : article_gains sampleRows 0 604800 = [("A", 300), ("B", 100)] := by decide
  simp only [weighted_follower_attribution, hs, he, hg]
  norm_num [List.insertionSort, List.orderedInsert]

/-! Claim theorems. -/

/-- C1: the spec requires the attribution engine's proximity match to return
only snapshots inside the tolerance window `[target - t, target + t]`, but the
engine's queries (analytics_service.py:936-967, 1015-1042, 857-883) order by
distance with NO window filter, so a lone snapshot 1000000 seconds away from
the target is returned even under the default 6-hour (21600 s) tolerance —
while the repository's own `find_closest_snapshot` primitive
(connection.py:253-310), which the docstrings and `validate_schema.py`
prescribe, correctly returns none. -/
theorem c1_attribution_proximity_ignores_tolerance :
    closest_follower_event [⟨0, 100, 0⟩] 1000000 = some ⟨0, 100, 0⟩ ∧
    ¬ |(0 : Int) - 1000000| ≤ 6 * 3600 ∧
    find_closest_snapshot (fun ev : FollowerEvent => ev.collected_at)
      [⟨0, 100, 0⟩] 1000000 6 = none := by
  decide

/-- C2: whenever the attribution engine succeeds with a positive total gain
(two distinct snapshots found, `total_gain > 0`, `global_traffic_gain ≠ 0`),
every article with positive view gain receives
`(viewsGain / globalTrafficGain) * totalGain` and the attributed followers
sum exactly to `total_gain` (exactly in `ℚ`; within floating-point tolerance
in the Python floats). -/
theorem c2_attribution_sum_eq_total_gain (events : List FollowerEvent)
    (rows : List ArticleMetricRow) (startT endT : Int)
    (herr : (weighted_follower_attribution events rows startT endT).error = none)
    (hpos : 0 < (weighted_follower_attribution events rows startT endT).total_gain) :
    ((weighted_follower_attribution events rows startT endT).attribution.map
        (fun i => i.attributed_followers)).sum
      = ((weighted_follower_attribution events rows startT endT).total_gain : ℚ) := by
  rcases hcs : closest_follower_event events startT with _ | s
  · simp [weighted_follower_attribution, hcs] at herr
  rcases hce : closest_follower_event events endT with _ | e
  · simp [weighted_follower_attribution, hcs, hce] at herr
  by_cases hsame : s.collected_at = e.collected_at
  · simp [weighted_follower_attribution, hcs, hce, hsame] at herr
  by_cases hng : e.follower_count - s.follower_count ≤ 0
  · simp only [weighted_follower_attribution, hcs, hce, if_neg hsame, if_pos hng] at hpos
    omega
  by_cases hglb : ((article_gains rows startT endT).map (fun g => g.2)).sum = 0
  · simp only [weighted_follower_attribution, hcs, hce, if_neg hsame, if_neg hng,
      if_pos hglb] at herr
    exact absurd herr (by simp)
  · simp only [weighted_follower_attribution, hcs, hce, if_neg hsame, if_neg hng,
      if_neg hglb]
    exact sum_attributed _ _ _ hglb (((List.perm_insertionSort _ _).map _).sum_eq)

/-- C2 witness: the spec's worked example — follower snapshots 100 and 150
seven days apart (gain 50), view gains 300 and 100 — satisfies the hypotheses,
the attributed followers sum to the total gain, and the individual
attributions are 37.5 and 12.5. -/
theorem c2_witness :
    (weighted_follower_attribution sampleEvents sampleRows 0 604800).error = none ∧
    0 < (weighted_follower_attribution sampleEvents sampleRows 0 604800).total_gain ∧
    ((weighted_follower_attribution sampleEvents sampleRows 0 604800).attribution.map
        (fun i => i.attributed_followers)).sum
      = ((weighted_follower_attribution sampleEvents sampleRows 0 604800).total_gain : ℚ) ∧
    (weighted_follower_attribution sampleEvents sampleRows 0 604800).attribution.map
        (fun i => i.attributed_followers) = [75 / 2, 25 / 2] :=
  ⟨by decide, by decide,
    c2_attribution_sum_eq_total_gain sampleEvents sampleRows 0 604800 (by decide) (by decide),
    by rw [sample_attribution_eval]; norm_num⟩

/-- C3: every item in an attribution result has `attributed_followers` between
0 and the result's `total_gain`: no negative credit and never more than 100
percent of the total follower gain for a single article. -/
theorem c3_attributed_followers_bounds (events : List FollowerEvent)
    (rows : List ArticleMetricRow) (startT endT : Int) (x : AttributionItem)
    (hx : x ∈ (weighted_follower_attribution events rows startT endT).attribution) :
    0 ≤ x.attributed_followers ∧
    x.attributed_followers
      ≤ ((weighted_follower_attribution events rows startT endT).total_gain : ℚ) := by
  rcases hcs : closest_follower_event events startT with _ | s
  · simp [weighted_follower_attribution, hcs] at hx
  rcases hce : closest_follower_event events endT with _ | e
  · simp [weighted_follower_attribution, hcs, hce] at hx
  by_cases hsame : s.collected_at = e.collected_at
  · simp [weighted_follower_attribution, hcs, hce, hsame] at hx
  by_cases hng : e.follower_count - s.follower_count ≤ 0
  · simp only [weighted_follower_attribution, hcs, hce, if_neg hsame, if_pos hng] at hx
    simp at hx
  by_cases hglb : ((article_gains rows startT endT).map (fun g => g.2)).sum = 0
  · simp only [weighted_follower_attribution, hcs, hce, if_neg hsame, if_neg hng,
      if_pos hglb] at hx
    simp at hx
  · simp only [weighted_follower_attribution, hcs, hce, if_neg hsame, if_neg hng,
      if_neg hglb] at hx ⊢
    rw [List.mem_map] at hx
    obtain ⟨g, hg, rfl⟩ := hx
    have hgmem : g ∈ article_gains rows startT endT := (List.mem_insertionSort _).mp hg
    have hgpos : 0 < g.2 := article_gains_pos rows startT endT g hgmem
    have hle : g.2 ≤ ((article_gains rows startT endT).map (fun q => q.2)).sum :=
      article_gains_le_sum rows startT endT g hgmem
    have hGpos : 0 < ((article_gains rows startT endT).map (fun q => q.2)).sum :=
      lt_of_lt_of_le hgpos hle
    have hTpos : 0 < e.follower_count - s.follower_count := by omega
    have hGq : (0 : ℚ) < (((article_gains rows startT endT).map (fun g => g.2)).sum : Int) := by
      exact_mod_cast hGpos
    have hTq : (0 : ℚ) ≤ ((e.follower_count - s.follower_count : Int) : ℚ) := by
      exact_mod_cast le_of_lt hTpos
    dsimp only
    constructor
    · apply mul_nonneg _ hTq
      apply div_nonneg _ (le_of_lt hGq)
      exact_mod_cast le_of_lt hgpos
    · have hshare : (g.2 : ℚ)
          / ((((article_gains rows startT endT).map (fun g => g.2)).sum : Int) : ℚ) ≤ 1 := by
        rw [div_le_one hGq]
        exact_mod_cast hle
      calc (g.2 : ℚ) / ((((article_gains rows startT endT).map (fun g => g.2)).sum : Int) : ℚ)
            * ((e.follower_count - s.follower_count : Int) : ℚ)
          ≤ 1 * ((e.follower_count - s.follower_count : Int) : ℚ) :=
            mul_le_mul_of_nonneg_right hshare hTq
        _ = ((e.follower_count - s.follower_count : Int) : ℚ) := one_mul _

/-- C3 witness: on the worked example, the item attributing 37.5 followers to
article "A" is in the result and its credit lies between 0 and the total
gain of 50. -/
theorem c3_witness :
    (⟨"A", 300, 3 / 4, 75 / 2⟩ : AttributionItem) ∈
        (weighted_follower_attribution sampleEvents sampleRows 0 604800).attribution ∧
    0 ≤ (⟨"A", 300, 3 / 4, 75 / 2⟩ : AttributionItem).attributed_followers ∧
    (⟨"A", 300, 3 / 4, 75 / 2⟩ : AttributionItem).attributed_followers
      ≤ ((weighted_follower_attribution sampleEvents sampleRows 0 604800).total_gain : ℚ) := by
  have hmem : (⟨"A", 300, 3 / 4, 75 / 2⟩ : AttributionItem) ∈
      (weighted_follower_attribution sampleEvents sampleRows 0 604800).attribution := by
    rw [sample_attribution_eval]
    simp
  exact ⟨hmem,
    (c3_attributed_followers_bounds sampleEvents sampleRows 0 604800 _ hmem).1,
    (c3_attributed_followers_bounds sampleEvents sampleRows 0 604800 _ hmem).2⟩

/-- C4 counterexample: the claim promises that malformed or negative inputs
are clamped and the score always lies in `[0, 100]`, but `get_quality_scores`
clamps nothing: with 0 average read seconds and -10 reactions the engagement
term is -1000 and the score is -1500, far outside the claimed range. -/
theorem c4_negative_inputs_escape_range :
    quality_score (some 8) 0 1 (-10) 0 = -1500 ∧
    ¬ (0 ≤ quality_score (some 8) 0 1 (-10) 0 ∧ quality_score (some 8) 0 1 (-10) 0 ≤ 100) := by
  constructor
  · norm_num [quality_score]
  · norm_num [quality_score]

/-- C4 (amended): the computation always completes (zero views are floored to
1, a null or zero reading time falls back to 5 minutes, and a negative reading
time just zeroes the completion term), and for non-negative `avgReadSeconds`,
`views`, `reactions` and `comments` the score lies in `[0, 100]`; negative
inputs are NOT clamped and can drive the score outside the range. -/
theorem c4_quality_score_range (rtm : Option Int) (avg : ℚ) (v r c : Int)
    (havg : 0 ≤ avg) (hv : 0 ≤ v) (hr : 0 ≤ r) (hc : 0 ≤ c) :
    0 ≤ quality_score rtm avg v r c ∧ quality_score rtm avg v r c ≤ 100 := by
  simp only [quality_score]
  generalize (match rtm with | none => 5 | some w => if w = 0 then 5 else w) * 60 = L
  apply score_formula_bounds
  · split_ifs with h
    · apply le_min (by norm_num)
      apply mul_nonneg _ (by norm_num)
      apply div_nonneg havg
      exact_mod_cast le_of_lt h
    · exact le_refl 0
  · split_ifs with h
    · exact min_le_left _ _
    · norm_num
  · have hv' : (0 : ℚ) < ((if v = 0 then 1 else v : Int) : ℚ) := by
      have h0 : (0 : Int) < (if v = 0 then 1 else v) := by
        split_ifs with hz
        · norm_num
        · omega
      exact_mod_cast h0
    apply mul_nonneg _ (by norm_num)
    apply div_nonneg _ (le_of_lt hv')
    have h1 : (0 : Int) ≤ r + c := by omega
    exact_mod_cast h1

/-- C4 witness: the spec's worked example (8 minutes nominal, 300 s average
read, 1000 views, 80 reactions, 8 comments) satisfies the hypotheses, stays in
range, and evaluates to the documented 56.95. -/
theorem c4_witness :
    (0 : ℚ) ≤ 300 ∧ (0 : Int) ≤ 1000 ∧ (0 : Int) ≤ 80 ∧ (0 : Int) ≤ 8 ∧
    (0 ≤ quality_score (some 8) 300 1000 80 8 ∧
      quality_score (some 8) 300 1000 80 8 ≤ 100) ∧
    quality_score (some 8) 300 1000 80 8 = 5695 / 100 :=
  ⟨by norm_num, by norm_num, by norm_num, by norm_num,
    c4_quality_score_range (some 8) 300 1000 80 8
      (by norm_num) (by norm_num) (by norm_num) (by norm_num),
    by norm_num [quality_score]⟩

/-- C5 counterexample: a pending comment whose body is empty is skipped by
`_process_batch` (`if not text: continue`) without receiving a
`comment_insights` row, so after a full run the pending set is NOT empty and
the comment stays pending forever. -/
theorem c5_work_queue_not_exhausted :
    pending_comments (process_pending_comments ⟨[⟨"c1", "bob", ""⟩], [], "me"⟩).1 ≠ [] ∧
    ("c1") ∉ (process_pending_comments ⟨[⟨"c1", "bob", ""⟩], [], "me"⟩).1.insights := by
  decide

/-- C5 (amended): after a full run of `process_pending_comments`, every
pending comment whose cleaned text is non-empty has a `comment_insights` row;
a second run with no new source comments therefore finds pending only comments
with empty cleaned text and processes none of them (`processed = 0`). -/
theorem c5_work_queue_second_run (st : NLPState) :
    (∀ c ∈ pending_comments st, clean_text c.body_html ≠ "" →
        c.comment_id ∈ (process_pending_comments st).1.insights) ∧
    (∀ c ∈ pending_comments (process_pending_comments st).1, clean_text c.body_html = "") ∧
    (process_pending_comments (process_pending_comments st).1).2 = 0 := by
  have key : ∀ c ∈ pending_comments (process_pending_comments st).1,
      clean_text c.body_html = "" := by
    intro c hc
    by_contra hne
    simp only [process_pending_comments, pending_comments, List.mem_filter,
      decide_eq_true_eq] at hc
    obtain ⟨hmem, hnotin, hauth⟩ := hc
    rw [List.mem_append] at hnotin
    push_neg at hnotin
    obtain ⟨hni, hnp⟩ := hnotin
    apply hnp
    rw [List.mem_map]
    refine ⟨c, ?_, rfl⟩
    rw [List.mem_filter]
    constructor
    · simp only [pending_comments, List.mem_filter, decide_eq_true_eq]
      exact ⟨hmem, hni, hauth⟩
    · exact decide_eq_true hne
  refine ⟨?_, key, ?_⟩
  · intro c hc hne
    simp only [process_pending_comments]
    rw [List.mem_append]
    right
    rw [List.mem_map]
    refine ⟨c, ?_, rfl⟩
    rw [List.mem_filter]
    exact ⟨hc, decide_eq_true hne⟩
  · have hnil : (pending_comments (process_pending_comments st).1).filter
        (fun c => decide (clean_text c.body_html ≠ "")) = [] := by
      rw [List.filter_eq_nil_iff]
      intro c hc
      simp only [decide_eq_true_eq, Decidable.not_not]
      exact key c hc
    show ((pending_comments (process_pending_comments st).1).filter
        (fun c => decide (clean_text c.body_html ≠ ""))).length = 0
    rw [hnil, List.length_nil]

/-- C5 witness: on the one-comment store of the counterexample, the second run
processes zero comments. -/
theorem c5_witness :
    (process_pending_comments
        (process_pending_comments ⟨[⟨"c1", "bob", ""⟩], [], "me"⟩).1).2 = 0 :=
  (c5_work_queue_second_run ⟨[⟨"c1", "bob", ""⟩], [], "me"⟩).2.2

/-- C6: when `pg_try_advisory_lock` reports the lock as already held, the sync
worker exits with code 0 (success) having attempted none of its phases — a
single-flight no-op, not a failure. -/
theorem c6_lock_contention_success_noop (env : SyncEnv) (h : env.lock_free = false) :
    (run_sync_pipeline env).exit_code = 0 ∧ (run_sync_pipeline env).phases_run = [] := by
  simp [run_sync_pipeline, h]

/-- C6 witness: a concrete contended invocation exits 0 with no phase run. -/
theorem c6_witness :
    (⟨false, PhaseResult.ok 0, PhaseResult.ok 0, PhaseResult.ok 0,
        PhaseResult.ok 0⟩ : SyncEnv).lock_free = false ∧
    ((run_sync_pipeline ⟨false, PhaseResult.ok 0, PhaseResult.ok 0, PhaseResult.ok 0,
        PhaseResult.ok 0⟩).exit_code = 0 ∧
      (run_sync_pipeline ⟨false, PhaseResult.ok 0, PhaseResult.ok 0, PhaseResult.ok 0,
        PhaseResult.ok 0⟩).phases_run = []) :=
  ⟨rfl, c6_lock_contention_success_noop _ rfl⟩

/-- C7 counterexample: the claim says all three point-in-time sub-pipelines
insert with conflict-ignore, but `sync_followers` issues a plain insert, so
re-recording an existing `collected_at` raises a uniqueness violation instead
of being ignored. -/
theorem c7_sync_followers_duplicate_raises :
    sync_followers [⟨1000, 100, 5⟩] 1000 105
      = Except.error ("duplicate key value violates unique constraint") := by
  rfl

/-- C7 (amended): article metrics and comments insert with conflict-ignore on
their natural uniqueness keys — re-running with an already-recorded key leaves
the store unchanged and raises no error — but follower events use a plain
insert, so a duplicate `collected_at` raises a uniqueness violation. -/
theorem c7_point_in_time_insert_behaviour
    (amStore : List ArticleMetricRow) (amRow : ArticleMetricRow)
    (cStore : List CommentRow) (cRow : CommentRow)
    (fStore : List FollowerEvent) (t cnt : Int)
    (h1 : ∃ x ∈ amStore, x.collected_at = amRow.collected_at ∧ x.article_id = amRow.article_id)
    (h2 : ∃ x ∈ cStore, x.comment_id = cRow.comment_id)
    (h3 : ∃ x ∈ fStore, x.collected_at = t) :
    insert_article_metric amStore amRow = amStore ∧
    insert_comment cStore cRow = (cStore, false) ∧
    sync_followers fStore t cnt
      = Except.error ("duplicate key value violates unique constraint") := by
  obtain ⟨x1, hx1, he1⟩ := h1
  obtain ⟨x2, hx2, he2⟩ := h2
  obtain ⟨x3, hx3, he3⟩ := h3
  have b1 : amStore.any (fun x =>
      decide (x.collected_at = amRow.collected_at ∧ x.article_id = amRow.article_id)) = true :=
    List.any_eq_true.mpr ⟨x1, hx1, decide_eq_true he1⟩
  have b2 : cStore.any (fun x => decide (x.comment_id = cRow.comment_id)) = true :=
    List.any_eq_true.mpr ⟨x2, hx2, decide_eq_true he2⟩
  have b3 : fStore.any (fun x => decide (x.collected_at = t)) = true :=
    List.any_eq_true.mpr ⟨x3, hx3, decide_eq_true he3⟩
  refine ⟨?_, ?_, ?_⟩
  · rw [insert_article_metric, if_pos b1]
  · rw [insert_comment, if_pos b2]
  · rw [sync_followers]
    simp only [b3, if_pos]

/-- C7 witness: concrete duplicate-key inserts — the article-metric and
comment re-inserts are ignored, the follower re-insert raises. -/
theorem c7_witness :
    (∃ x ∈ [(⟨0, 1, "A", 100⟩ : ArticleMetricRow)],
        x.collected_at = (⟨0, 1, "A", 250⟩ : ArticleMetricRow).collected_at ∧
        x.article_id = (⟨0, 1, "A", 250⟩ : ArticleMetricRow).article_id) ∧
    (∃ x ∈ [(⟨"c1", "bob", "hi"⟩ : CommentRow)],
        x.comment_id = (⟨"c1", "eve", "yo"⟩ : CommentRow).comment_id) ∧
    (∃ x ∈ [(⟨1000, 100, 5⟩ : FollowerEvent)], x.collected_at = (1000 : Int)) ∧
    insert_article_metric [⟨0, 1, "A", 100⟩] ⟨0, 1, "A", 250⟩ = [⟨0, 1, "A", 100⟩] ∧
    insert_comment [⟨"c1", "bob", "hi"⟩] ⟨"c1", "eve", "yo"⟩ = ([⟨"c1", "bob", "hi"⟩], false) ∧
    sync_followers [⟨1000, 100, 5⟩] 1000 105
      = Except.error ("duplicate key value violates unique constraint") := by
  have h := c7_point_in_time_insert_behaviour
    [⟨0, 1, "A", 100⟩] ⟨0, 1, "A", 250⟩ [⟨"c1", "bob", "hi"⟩] ⟨"c1", "eve", "yo"⟩
    [⟨1000, 100, 5⟩] 1000 105 (by decide) (by decide) (by decide)
  exact ⟨by decide, by decide, by decide, h.1, h.2.1, h.2.2⟩

/-- C8 counterexample: with the article-metrics sub-pipeline failing, its
siblings are never started and no summary is produced — the failure aborts the
sync rather than being collected into a phase summary. -/
theorem c8_sync_all_aborts_siblings :
    (sync_all ⟨PhaseResult.err ("boom"), PhaseResult.ok 1, PhaseResult.ok 1,
        PhaseResult.ok 1⟩).executed = ["articles"] ∧
    ("followers") ∉ (sync_all ⟨PhaseResult.err ("boom"), PhaseResult.ok 1, PhaseResult.ok 1,
        PhaseResult.ok 1⟩).executed ∧
    (sync_all ⟨PhaseResult.err ("boom"), PhaseResult.ok 1, PhaseResult.ok 1,
        PhaseResult.ok 1⟩).summary_produced = false := by
  decide

/-- C8 (amended): when the article-metrics sub-pipeline raises, `sync_all`
propagates the exception: the follower, comment and rich-analytics
sub-pipelines do not run and no summary is produced (rows committed by
already-completed statements remain, but there is no failure collection). -/
theorem c8_sync_all_failure_propagates (env : SyncAllEnv) (m : String)
    (h : env.articles = PhaseResult.err m) :
    (sync_all env).failure = some m ∧ (sync_all env).executed = ["articles"] ∧
    (sync_all env).summary_produced = false := by
  simp [sync_all, h]

/-- C8 witness: a concrete failing article-metrics phase aborts the sync with
its error propagated. -/
theorem c8_witness :
    (⟨PhaseResult.err ("boom"), PhaseResult.ok 1, PhaseResult.ok 1,
        PhaseResult.ok 1⟩ : SyncAllEnv).articles = PhaseResult.err ("boom") ∧
    ((sync_all ⟨PhaseResult.err ("boom"), PhaseResult.ok 1, PhaseResult.ok 1,
        PhaseResult.ok 1⟩).failure = some ("boom") ∧
      (sync_all ⟨PhaseResult.err ("boom"), PhaseResult.ok 1, PhaseResult.ok 1,
        PhaseResult.ok 1⟩).executed = ["articles"] ∧
      (sync_all ⟨PhaseResult.err ("boom"), PhaseResult.ok 1, PhaseResult.ok 1,
        PhaseResult.ok 1⟩).summary_produced = false) :=
  ⟨rfl, c8_sync_all_failure_propagates _ _ rfl⟩

/-- C9: the attribution engine returns an explicit error when a boundary
follower snapshot is missing or when both boundaries resolve to the same
snapshot, and returns error-free zero attribution when two distinct snapshots
show a non-positive total gain. -/
theorem c9_insufficient_data_contract (events : List FollowerEvent)
    (rows : List ArticleMetricRow) (startT endT : Int) :
    insufficient_data_spec events rows startT endT := by
  refine ⟨?_, ?_, ?_⟩
  · intro h
    rcases hcs : closest_follower_event events startT with _ | s
    · simp [weighted_follower_attribution, hcs]
    rcases hce : closest_follower_event events endT with _ | e
    · simp [weighted_follower_attribution, hcs, hce]
    · rw [hcs, hce] at h
      simp at h
  · intro s e hs he hsame
    simp [weighted_follower_attribution, hs, he, hsame]
  · intro s e hs he hne hle
    simp only [weighted_follower_attribution, hs, he, if_neg hne, if_pos hle]
    exact ⟨trivial, trivial, trivial⟩

/-- C9 witness: on a declining follower history (150 to 100), the engine
returns no error, total gain -50 and an empty attribution list. -/
theorem c9_witness :
    (weighted_follower_attribution decliningEvents sampleRows 0 604800).error = none ∧
    (weighted_follower_attribution decliningEvents sampleRows 0 604800).total_gain = -50 ∧
    (weighted_follower_attribution decliningEvents sampleRows 0 604800).attribution = [] := by
  have h := (c9_insufficient_data_contract decliningEvents sampleRows 0 604800).2.2
    ⟨0, 150, 0⟩ ⟨604800, 100, 0⟩ (by decide) (by decide) (by decide) (by decide)
  refine ⟨h.1, ?_, h.2.2⟩
  rw [h.2.1]
  decide

/-- C10: holding the other arguments fixed at non-negative values, the quality
score is monotonically non-decreasing in `avgReadSeconds` and in
`reactions + comments` (the caps at 100 and 20 make the score flat beyond
them, never decreasing). -/
theorem c10_quality_score_monotone (rtm : Option Int) (a₁ a₂ : ℚ) (v r₁ c₁ r₂ c₂ : Int)
    (ha₀ : 0 ≤ a₁) (ha : a₁ ≤ a₂) (hv : 0 ≤ v) (hr₁ : 0 ≤ r₁) (hc₁ : 0 ≤ c₁)
    (hr₂ : 0 ≤ r₂) (hc₂ : 0 ≤ c₂) (hrc : r₁ + c₁ ≤ r₂ + c₂) :
    quality_score rtm a₁ v r₁ c₁ ≤ quality_score rtm a₂ v r₁ c₁ ∧
    quality_score rtm a₁ v r₁ c₁ ≤ quality_score rtm a₁ v r₂ c₂ := by
  have hv' : (0 : ℚ) < ((if v = 0 then 1 else v : Int) : ℚ) := by
    have h0 : (0 : Int) < (if v = 0 then 1 else v) := by
      split_ifs with hz
      · norm_num
      · omega
    exact_mod_cast h0
  constructor
  · simp only [quality_score]
    generalize (match rtm with | none => 5 | some w => if w = 0 then 5 else w) * 60 = L
    apply add_le_add_right
    apply mul_le_mul_of_nonneg_right _ (by norm_num)
    split_ifs with h
    · apply min_le_min (le_refl 100)
      apply mul_le_mul_of_nonneg_right _ (by norm_num)
      have hL : (0 : ℚ) < (L : ℚ) := by exact_mod_cast h
      exact (div_le_div_iff_of_pos_right hL).mpr ha
    · exact le_refl 0
  · simp only [quality_score]
    apply add_le_add_left
    apply mul_le_mul_of_nonneg_right _ (by norm_num)
    apply min_le_min _ (le_refl 20)
    apply mul_le_mul_of_nonneg_right _ (by norm_num)
    apply (div_le_div_iff_of_pos_right hv').mpr
    exact_mod_cast hrc

/-- C10 witness: doubling the average read seconds (100 to 200) and raising
reactions + comments (15 to 30) never lowers the score at the concrete
example point. -/
theorem c10_witness :
    (0 : ℚ) ≤ 100 ∧ (100 : ℚ) ≤ 200 ∧ (0 : Int) ≤ 1000 ∧
    (10 : Int) + 5 ≤ 20 + 10 ∧
    (quality_score (some 8) 100 1000 10 5 ≤ quality_score (some 8) 200 1000 10 5 ∧
      quality_score (some 8) 100 1000 10 5 ≤ quality_score (some 8) 100 1000 20 10) :=
  ⟨by norm_num, by norm_num, by norm_num, by norm_num,
    c10_quality_score_monotone (some 8) 100 200 1000 10 5 20 10
      (by norm_num) (by norm_num) (by norm_num) (by norm_num) (by norm_num)
      (by norm_num) (by norm_num) (by norm_num)⟩

end Devto
